import Mathlib

/-!
ShelfHeap, the heap lifecycle coordinator of `src/shelf_usage/zone_shelf_heap.cc`

A shallow embedding of `nvmm::ShelfHeap`.

* The object state (`is_open_`, `shelf_`, `addr_`, `zone_`, `helper_`, `helper_size_`) is a
  record that every member function receives and returns.
* `assert(...)` is modelled as active: a failing assertion ends the call with
  `Outcome.abort`, carrying the identity of the assertion and the state at that point.
* `ShelfFile` (the RegionStore, `shelf_mgmt/shelf_file.h`) and `Zone` (`shelf_usage/zone.h`)
  are classes whose code is not part of the source under study.  Their member functions
  are parameters of the model (`ShelfFile σ`, `ZoneClass Z`), so every theorem holds for
  every behaviour of these collaborators; `simFile` and `stubZone` are small concrete
  instances used to evaluate the model on concrete inputs.
* Pointers are natural-number addresses, `0` being `NULL`.  `size_t` and `Offset` values are
  natural numbers: the code performs no arithmetic on them apart from one pointer
  difference that is taken only after `addr > zone_` has been asserted.
* `LOG(trace)` statements only write to the diagnostic log and are left out.
-/

namespace nvmm

/-! ## Basic types -/

/-- Machine address, with 0 standing for the NULL pointer. -/
abbrev Ptr := Nat

/-- Byte distance handed out by the heap (the typedef Offset of nvmm/global_ptr.h). -/
abbrev Offset := Nat

/-- The NULL pointer. -/
abbrev NULL : Ptr := 0

/-- Error codes of nvmm/error_code.h that this file mentions by name, plus all the others. -/
inductive ErrorCode where
  | NO_ERROR
  | SHELF_FILE_NOT_FOUND
  | OTHER (code : Nat)
  deriving DecidableEq, Repr

export ErrorCode (NO_ERROR SHELF_FILE_NOT_FOUND)

/-- Value of O_RDWR in fcntl.h. -/
def O_RDWR : Nat := 2
/-- Value of PROT_READ in sys/mman.h. -/
def PROT_READ : Nat := 1
/-- Value of PROT_WRITE in sys/mman.h. -/
def PROT_WRITE : Nat := 2
/-- Value of MAP_SHARED in sys/mman.h. -/
def MAP_SHARED : Nat := 1

/-- Which check ended a call fatally. -/
inductive Fault where
  /-- Failure of assert(IsOpen() == false). -/
  | IsOpen_false
  /-- Failure of assert(IsOpen() == true). -/
  | IsOpen_true
  /-- Failure of assert(shelf_.Exist() == true) in Create. -/
  | Exist_true
  /-- Failure of assert(addr_ == NULL) in OpenMapShelf. -/
  | addr_eq_NULL
  /-- Failure of assert(addr_ != NULL), in UnmapCloseShelf or after a successful private map. -/
  | addr_ne_NULL
  /-- Failure of assert(zone_->IsValidOffset(offset) == true). -/
  | IsValidOffset_true
  /-- Failure of assert(addr>zone_) in PtrToOffset. -/
  | addr_gt_zone
  /-- Use of zone_-> while zone_ is NULL (not an assertion: the call cannot proceed). -/
  | zone_NULL
  deriving DecidableEq, Repr

/-- Result of a member function: it returns a value, or a check fails fatally;
either way the object state at that point is recorded. -/
inductive Outcome (S α : Type) where
  | ret (val : α) (st : S)
  | abort (why : Fault) (st : S)
  deriving DecidableEq, Repr

/-- State in which a call ended. -/
def Outcome.state {S α : Type} : Outcome S α → S
  | .ret _ s => s
  | .abort _ s => s

/-! ## Collaborators (code outside the source under study, taken as parameters) -/

/-- Member functions of ShelfFile that ShelfHeap calls, over the ShelfFile state σ.
Map and MapRange return the value they leave in the out-parameter (addr_ is NULL when
they are called). -/
structure ShelfFile (σ : Type) where
  /-- Exist(): does the backing region exist. -/
  Exist : σ → Bool
  /-- Truncate(length). -/
  Truncate : σ → Nat → ErrorCode × σ
  /-- Open(flags). -/
  Open : σ → Nat → ErrorCode × σ
  /-- Close(). -/
  Close : σ → ErrorCode × σ
  /-- Map(addr_hint, mapped_addr): the shared path through the shelf manager. -/
  Map : σ → Ptr → ErrorCode × Ptr × σ
  /-- Map(addr_hint, length, prot, flags, offset, mapped_addr, register): the private path. -/
  MapRange : σ → Ptr → Nat → Nat → Nat → Nat → Bool → ErrorCode × Ptr × σ
  /-- Unmap(mapped_addr, unregister): the shared path. -/
  Unmap : σ → Ptr → Bool → ErrorCode × σ
  /-- Unmap(mapped_addr, length, unregister): the private path. -/
  UnmapRange : σ → Ptr → Nat → Bool → ErrorCode × σ
  /-- Size(): current size of the backing region. -/
  Size : σ → Nat

/-- Constructors and member functions of Zone that ShelfHeap uses, over the Zone state Z,
and the address at which operator new places a Zone object. -/
structure ZoneClass (Z : Type) where
  /-- Address returned by the new-expression for a Zone. -/
  new_addr : Ptr
  /-- Zone(addr, initial_pool_size, min_obj_size, max_pool_size, helper, helper_size). -/
  create : Ptr → Nat → Nat → Nat → Ptr → Nat → Z
  /-- Zone(addr, pool_size, helper, helper_size). -/
  attach : Ptr → Nat → Ptr → Nat → Z
  /-- The member alloc(size). -/
  alloc : Z → Nat → Offset × Z
  /-- The member free(offset). -/
  free : Z → Offset → Z
  /-- The member IsValidOffset(offset). -/
  IsValidOffset : Z → Offset → Bool
  /-- The member OffsetToPtr(offset). -/
  OffsetToPtr : Z → Offset → Ptr
  /-- The member min_obj_size(). -/
  min_obj_size : Z → Nat

/-- A non-NULL Zone pointer: the address of the object and the object it points to. -/
structure ZoneRef (Z : Type) where
  ptr : Ptr
  obj : Z
  deriving DecidableEq, Repr

/-! ## The ShelfHeap object -/

/-- Data members of ShelfHeap; zone_ = none is the NULL pointer. -/
structure ShelfHeap (σ Z : Type) where
  is_open_ : Bool
  shelf_ : σ
  addr_ : Ptr
  zone_ : Option (ZoneRef Z)
  helper_ : Ptr
  helper_size_ : Nat
  deriving DecidableEq, Repr

namespace ShelfHeap

variable {σ Z : Type}

/-- Constructors ShelfHeap(pathname) and ShelfHeap(pathname, shelf_id): shelf is the
ShelfFile they build.  helper_ and helper_size_ are not initialised by the constructors and
are not read before Open assigns them; they are given the value 0 here. -/
def construct (shelf : σ) : ShelfHeap σ Z :=
  { is_open_ := false, shelf_ := shelf, addr_ := NULL, zone_ := none,
    helper_ := 0, helper_size_ := 0 }

/-- IsOpen() (declared in the header): the is_open_ flag. -/
def IsOpen (h : ShelfHeap σ Z) : Bool := h.is_open_

/-- ShelfHeap::OpenMapShelf(use_shelf_manager), lines 233-273. -/
def OpenMapShelf (F : ShelfFile σ) (h : ShelfHeap σ Z) (use_shelf_manager : Bool) :
    Outcome (ShelfHeap σ Z) ErrorCode :=
  if F.Exist h.shelf_ = false then .ret SHELF_FILE_NOT_FOUND h
  else
    let o := F.Open h.shelf_ O_RDWR
    let h1 := { h with shelf_ := o.2 }
    if o.1 ≠ NO_ERROR then .ret o.1 h1
    else if h1.addr_ ≠ NULL then .abort .addr_eq_NULL h1
    else if use_shelf_manager = true then
      let m := F.Map h1.shelf_ NULL
      .ret m.1 { h1 with shelf_ := m.2.2, addr_ := m.2.1 }
    else
      let size := F.Size h1.shelf_
      if size ≠ 0 then
        let m := F.MapRange h1.shelf_ NULL size (PROT_READ ||| PROT_WRITE) MAP_SHARED 0 true
        let h2 := { h1 with shelf_ := m.2.2, addr_ := m.2.1 }
        if m.1 = NO_ERROR then
          if h2.addr_ ≠ NULL then .ret m.1 h2 else .abort .addr_ne_NULL h2
        else .ret m.1 h2
      else .ret NO_ERROR h1

/-- ShelfHeap::UnmapCloseShelf(use_shelf_manager, unregister), lines 275-308. -/
def UnmapCloseShelf (F : ShelfFile σ) (h : ShelfHeap σ Z) (use_shelf_manager unregister : Bool) :
    Outcome (ShelfHeap σ Z) ErrorCode :=
  if F.Exist h.shelf_ = false then .ret SHELF_FILE_NOT_FOUND h
  else if h.addr_ = NULL then .abort .addr_ne_NULL h
  else
    let size := F.Size h.shelf_
    let u := if use_shelf_manager = true then F.Unmap h.shelf_ h.addr_ unregister
             else F.UnmapRange h.shelf_ h.addr_ size true
    if u.1 = NO_ERROR then
      let h1 := { h with shelf_ := u.2, addr_ := NULL }
      let c := F.Close h1.shelf_
      .ret c.1 { h1 with shelf_ := c.2 }
    else .ret u.1 { h with shelf_ := u.2 }

/-- ShelfHeap::Create(zone_size, helper, helper_size), lines 62-97.  OpenMapShelf() and
UnmapCloseShelf() are called without arguments, that is on the private path. -/
def Create (F : ShelfFile σ) (Zc : ZoneClass Z) (h : ShelfHeap σ Z)
    (zone_size : Nat) (helper : Ptr) (helper_size : Nat) : Outcome (ShelfHeap σ Z) ErrorCode :=
  if h.IsOpen ≠ false then .abort .IsOpen_false h
  else if F.Exist h.shelf_ ≠ true then .abort .Exist_true h
  else
    let t := F.Truncate h.shelf_ zone_size
    let h1 := { h with shelf_ := t.2 }
    if t.1 ≠ NO_ERROR then .ret t.1 h1
    else
      match OpenMapShelf F h1 false with
      | .abort a h2 => .abort a h2
      | .ret ret h2 =>
        if ret ≠ NO_ERROR then .ret ret h2
        else
          -- Zone *zone = new Zone(addr_, zone_size, 64, zone_size, helper, helper_size);
          -- delete zone;
          let _zone : ZoneRef Z :=
            ⟨Zc.new_addr, Zc.create h2.addr_ zone_size 64 zone_size helper helper_size⟩
          UnmapCloseShelf F h2 false false

/-- ShelfHeap::Destroy(), lines 99-122. -/
def Destroy (F : ShelfFile σ) (h : ShelfHeap σ Z) : Outcome (ShelfHeap σ Z) ErrorCode :=
  if h.IsOpen ≠ false then .abort .IsOpen_false h
  else
    match OpenMapShelf F h true with
    | .abort a h1 => .abort a h1
    | .ret ret h1 =>
      if ret ≠ NO_ERROR then .ret ret h1
      else
        match UnmapCloseShelf F h1 true true with
        | .abort a h2 => .abort a h2
        | .ret ret h2 =>
          if ret ≠ NO_ERROR then .ret ret h2
          else
            let t := F.Truncate h2.shelf_ 0
            .ret t.1 { h2 with shelf_ := t.2 }

/-- ShelfHeap::Verify(), lines 124-139: the result of UnmapCloseShelf() is cast to void. -/
def Verify (F : ShelfFile σ) (h : ShelfHeap σ Z) : Outcome (ShelfHeap σ Z) ErrorCode :=
  if h.IsOpen ≠ false then .abort .IsOpen_false h
  else
    match OpenMapShelf F h false with
    | .abort a h1 => .abort a h1
    | .ret ret h1 =>
      if ret ≠ NO_ERROR then .ret ret h1
      else
        match UnmapCloseShelf F h1 false false with
        | .abort a h2 => .abort a h2
        | .ret _ h2 => .ret ret h2

/-- ShelfHeap::Recover(), lines 141-145. -/
def Recover (h : ShelfHeap σ Z) : Outcome (ShelfHeap σ Z) ErrorCode :=
  .ret NO_ERROR h

/-- ShelfHeap::Open(helper, helper_size), lines 147-166. -/
def Open (F : ShelfFile σ) (Zc : ZoneClass Z) (h : ShelfHeap σ Z)
    (helper : Ptr) (helper_size : Nat) : Outcome (ShelfHeap σ Z) ErrorCode :=
  if h.IsOpen ≠ false then .abort .IsOpen_false h
  else
    match OpenMapShelf F h true with
    | .abort a h1 => .abort a h1
    | .ret ret h1 =>
      if ret ≠ NO_ERROR then .ret ret h1
      else
        let h2 := { h1 with helper_ := helper, helper_size_ := helper_size }
        let h3 := { h2 with
          zone_ := some ⟨Zc.new_addr,
            Zc.attach h2.addr_ (F.Size h2.shelf_) h2.helper_ h2.helper_size_⟩ }
        .ret ret { h3 with is_open_ := true }

/-- ShelfHeap::Close(), lines 168-181. -/
def Close (F : ShelfFile σ) (h : ShelfHeap σ Z) : Outcome (ShelfHeap σ Z) ErrorCode :=
  if h.IsOpen ≠ true then .abort .IsOpen_true h
  else
    let h1 := { h with zone_ := none }
    match UnmapCloseShelf F h1 true false with
    | .abort a h2 => .abort a h2
    | .ret ret h2 =>
      if ret = NO_ERROR then .ret ret { h2 with is_open_ := false }
      else .ret ret h2

/-- Destructor of ShelfHeap, lines 54-60: closes an open heap and drops the result. -/
def destructor (F : ShelfFile σ) (h : ShelfHeap σ Z) : Outcome (ShelfHeap σ Z) Unit :=
  if h.IsOpen = true then
    match Close F h with
    | .abort a h1 => .abort a h1
    | .ret _ h1 => .ret () h1
  else .ret () h

/-- ShelfHeap::Size(), lines 183-187. -/
def Size (F : ShelfFile σ) (h : ShelfHeap σ Z) : Outcome (ShelfHeap σ Z) Nat :=
  if h.IsOpen ≠ true then .abort .IsOpen_true h
  else .ret (F.Size h.shelf_) h

/-- ShelfHeap::MinAllocSize(), lines 189-193. -/
def MinAllocSize (Zc : ZoneClass Z) (h : ShelfHeap σ Z) : Outcome (ShelfHeap σ Z) Nat :=
  if h.IsOpen ≠ true then .abort .IsOpen_true h
  else
    match h.zone_ with
    | none => .abort .zone_NULL h
    | some z => .ret (Zc.min_obj_size z.obj) h

/-- ShelfHeap::Alloc(size), lines 195-202. -/
def Alloc (Zc : ZoneClass Z) (h : ShelfHeap σ Z) (size : Nat) :
    Outcome (ShelfHeap σ Z) Offset :=
  if h.IsOpen ≠ true then .abort .IsOpen_true h
  else
    match h.zone_ with
    | none => .abort .zone_NULL h
    | some z =>
      let a := Zc.alloc z.obj size
      .ret a.1 { h with zone_ := some { z with obj := a.2 } }

/-- ShelfHeap::Free(offset), lines 204-209. -/
def Free (Zc : ZoneClass Z) (h : ShelfHeap σ Z) (offset : Offset) :
    Outcome (ShelfHeap σ Z) Unit :=
  if h.IsOpen ≠ true then .abort .IsOpen_true h
  else
    match h.zone_ with
    | none => .abort .zone_NULL h
    | some z => .ret () { h with zone_ := some { z with obj := Zc.free z.obj offset } }

/-- ShelfHeap::IsValidOffset(offset), lines 211-215. -/
def IsValidOffset (Zc : ZoneClass Z) (h : ShelfHeap σ Z) (offset : Offset) :
    Outcome (ShelfHeap σ Z) Bool :=
  if h.IsOpen ≠ true then .abort .IsOpen_true h
  else
    match h.zone_ with
    | none => .abort .zone_NULL h
    | some z => .ret (Zc.IsValidOffset z.obj offset) h

/-- ShelfHeap::OffsetToPtr(offset), lines 217-222. -/
def OffsetToPtr (Zc : ZoneClass Z) (h : ShelfHeap σ Z) (offset : Offset) :
    Outcome (ShelfHeap σ Z) Ptr :=
  if h.IsOpen ≠ true then .abort .IsOpen_true h
  else
    match h.zone_ with
    | none => .abort .zone_NULL h
    | some z =>
      if Zc.IsValidOffset z.obj offset ≠ true then .abort .IsValidOffset_true h
      else .ret (Zc.OffsetToPtr z.obj offset) h

/-- ShelfHeap::PtrToOffset(addr), lines 224-231: the pointer that is compared with addr and
subtracted from it is zone_, the address of the Zone object. -/
def PtrToOffset (Zc : ZoneClass Z) (h : ShelfHeap σ Z) (addr : Ptr) :
    Outcome (ShelfHeap σ Z) Offset :=
  if h.IsOpen ≠ true then .abort .IsOpen_true h
  else
    -- a NULL zone_ compares as address 0; the dereference comes after the subtraction
    let zone_ptr : Ptr := match h.zone_ with
      | none => NULL
      | some z => z.ptr
    if ¬ (addr > zone_ptr) then .abort .addr_gt_zone h
    else
      let offset : Offset := addr - zone_ptr
      match h.zone_ with
      | none => .abort .zone_NULL h
      | some z =>
        if Zc.IsValidOffset z.obj offset ≠ true then .abort .IsValidOffset_true h
        else .ret offset h

end ShelfHeap

/-! ## Recording the RegionStore calls -/

/-- The lifecycle calls of ShelfHeap with their arguments. -/
inductive Operation where
  | Create (zone_size : Nat) (helper : Ptr) (helper_size : Nat)
  | Destroy
  | Verify
  | Recover
  | Open (helper : Ptr) (helper_size : Nat)
  | Close
  deriving DecidableEq, Repr

/-- Perform one lifecycle call. -/
def Operation.run {σ Z : Type} (F : ShelfFile σ) (Zc : ZoneClass Z) :
    Operation → ShelfHeap σ Z → Outcome (ShelfHeap σ Z) ErrorCode
  | .Create zone_size helper helper_size, h =>
    ShelfHeap.Create F Zc h zone_size helper helper_size
  | .Destroy, h => ShelfHeap.Destroy F h
  | .Verify, h => ShelfHeap.Verify F h
  | .Recover, h => ShelfHeap.Recover h
  | .Open helper helper_size, h => ShelfHeap.Open F Zc h helper helper_size
  | .Close, h => ShelfHeap.Close F h

/-- Perform a sequence of lifecycle calls one after the other, whatever codes they return;
the sequence ends at the first call that aborts.  The result is that of the last call made
(NO_ERROR and the unchanged state for the empty sequence). -/
def runAll {σ Z : Type} (F : ShelfFile σ) (Zc : ZoneClass Z) :
    List Operation → ShelfHeap σ Z → Outcome (ShelfHeap σ Z) ErrorCode
  | [], h => .ret NO_ERROR h
  | [op], h => op.run F Zc h
  | op :: rest, h =>
    match op.run F Zc h with
    | .abort a h1 => .abort a h1
    | .ret _ h1 => runAll F Zc rest h1

/-- A RegionStore all of whose calls succeed: a successful map yields a non-NULL address,
truncate sets the size, and no other call changes the size or the existence of the region. -/
structure Cooperative {σ : Type} (F : ShelfFile σ) : Prop where
  truncate_ok : ∀ s n, (F.Truncate s n).1 = NO_ERROR
  open_ok : ∀ s f, (F.Open s f).1 = NO_ERROR
  close_ok : ∀ s, (F.Close s).1 = NO_ERROR
  map_ok : ∀ s a, (F.Map s a).1 = NO_ERROR
  mapRange_ok : ∀ s a n p f o r, (F.MapRange s a n p f o r).1 = NO_ERROR
  unmap_ok : ∀ s a u, (F.Unmap s a u).1 = NO_ERROR
  unmapRange_ok : ∀ s a n u, (F.UnmapRange s a n u).1 = NO_ERROR
  map_ne_NULL : ∀ s a, (F.Map s a).2.1 ≠ NULL
  mapRange_ne_NULL : ∀ s a n p f o r, (F.MapRange s a n p f o r).2.1 ≠ NULL
  truncate_size : ∀ s n, F.Size (F.Truncate s n).2 = n
  open_size : ∀ s f, F.Size (F.Open s f).2 = F.Size s
  close_size : ∀ s, F.Size (F.Close s).2 = F.Size s
  map_size : ∀ s a, F.Size (F.Map s a).2.2 = F.Size s
  mapRange_size : ∀ s a n p f o r, F.Size (F.MapRange s a n p f o r).2.2 = F.Size s
  unmap_size : ∀ s a u, F.Size (F.Unmap s a u).2 = F.Size s
  unmapRange_size : ∀ s a n u, F.Size (F.UnmapRange s a n u).2 = F.Size s
  truncate_exist : ∀ s n, F.Exist (F.Truncate s n).2 = F.Exist s
  open_exist : ∀ s f, F.Exist (F.Open s f).2 = F.Exist s
  close_exist : ∀ s, F.Exist (F.Close s).2 = F.Exist s
  map_exist : ∀ s a, F.Exist (F.Map s a).2.2 = F.Exist s
  mapRange_exist : ∀ s a n p f o r, F.Exist (F.MapRange s a n p f o r).2.2 = F.Exist s
  unmap_exist : ∀ s a u, F.Exist (F.Unmap s a u).2 = F.Exist s
  unmapRange_exist : ∀ s a n u, F.Exist (F.UnmapRange s a n u).2 = F.Exist s

/-! ## Concrete collaborators for evaluating the model -/

/-- State of a simulated backing region. -/
structure FileSim where
  exist : Bool
  size : Nat
  opened : Bool
  mapped : Bool
  deriving DecidableEq, Repr

/-- Behaviour of a simulated RegionStore: the code each call returns and the address at
which a successful map places the region. -/
structure Script where
  truncateRet : ErrorCode
  openRet : ErrorCode
  mapRet : ErrorCode
  unmapRet : ErrorCode
  closeRet : ErrorCode
  base : Ptr
  deriving DecidableEq, Repr

/-- Simulated RegionStore over a file that is resized by truncate and is neither created
nor removed by any call; a call that is scripted to fail changes nothing. -/
def simFile (c : Script) : ShelfFile FileSim where
  Exist s := s.exist
  Truncate s n :=
    if c.truncateRet = NO_ERROR then (NO_ERROR, { s with size := n }) else (c.truncateRet, s)
  Open s _ :=
    if c.openRet = NO_ERROR then (NO_ERROR, { s with opened := true }) else (c.openRet, s)
  Close s :=
    if c.closeRet = NO_ERROR then (NO_ERROR, { s with opened := false }) else (c.closeRet, s)
  Map s _ :=
    if c.mapRet = NO_ERROR then (NO_ERROR, c.base, { s with mapped := true })
    else (c.mapRet, NULL, s)
  MapRange s _ _ _ _ _ _ :=
    if c.mapRet = NO_ERROR then (NO_ERROR, c.base, { s with mapped := true })
    else (c.mapRet, NULL, s)
  Unmap s _ _ :=
    if c.unmapRet = NO_ERROR then (NO_ERROR, { s with mapped := false }) else (c.unmapRet, s)
  UnmapRange s _ _ _ :=
    if c.unmapRet = NO_ERROR then (NO_ERROR, { s with mapped := false }) else (c.unmapRet, s)
  Size s := s.size

/-- Script in which every call succeeds and the region is mapped at address 1048576. -/
def allSucceed : Script :=
  { truncateRet := NO_ERROR, openRet := NO_ERROR, mapRet := NO_ERROR, unmapRet := NO_ERROR,
    closeRet := NO_ERROR, base := 1048576 }

/-- Script in which every unmap fails with code 1 and every other call succeeds. -/
def unmapFails : Script := { allSucceed with unmapRet := .OTHER 1 }

/-- Script in which every close fails with code 2 and every other call succeeds. -/
def closeFails : Script := { allSucceed with closeRet := .OTHER 2 }

/-- An existing backing region of the given size, neither opened nor mapped. -/
def existingFile (size : Nat) : FileSim :=
  { exist := true, size := size, opened := false, mapped := false }

/-- A backing region that does not exist. -/
def missingFile : FileSim :=
  { exist := false, size := 0, opened := false, mapped := false }

/-- State of a simulated Zone: the constructor arguments, the offsets handed out and the
offset of the next unused granule. -/
structure ZoneSim where
  addr : Ptr
  pool_size : Nat
  helper : Ptr
  helper_size : Nat
  live : List Offset
  next : Offset
  deriving DecidableEq, Repr

/-- Simulated Zone with 64-byte granules that hands out consecutive granule runs after a
64-byte header and the helper block, and returns 0 when the pool is exhausted; OffsetToPtr
is base + offset.  The object itself is placed at address 8192. -/
def stubZone : ZoneClass ZoneSim where
  new_addr := 8192
  create addr initial_pool_size _ _ helper helper_size :=
    { addr := addr, pool_size := initial_pool_size, helper := helper, helper_size := helper_size,
      live := [], next := 64 + 64 * ((helper_size + 63) / 64) }
  attach addr pool_size helper helper_size :=
    { addr := addr, pool_size := pool_size, helper := helper, helper_size := helper_size,
      live := [], next := 64 + 64 * ((helper_size + 63) / 64) }
  alloc z size :=
    if z.next + 64 * ((size + 63) / 64) ≤ z.pool_size then
      (z.next, { z with live := z.next :: z.live, next := z.next + 64 * ((size + 63) / 64) })
    else (0, z)
  free z offset := { z with live := z.live.erase offset }
  IsValidOffset z offset := decide (offset ∈ z.live)
  OffsetToPtr z offset := z.addr + offset
  min_obj_size _ := 64

/-- A freshly constructed heap over an existing backing region of 4096 bytes. -/
def freshHeap : ShelfHeap FileSim ZoneSim := ShelfHeap.construct (existingFile 4096)

/-- The heap that Open(NULL, 0) makes of freshHeap when every RegionStore call succeeds. -/
def openHeap : ShelfHeap FileSim ZoneSim :=
  { is_open_ := true,
    shelf_ := { exist := true, size := 4096, opened := true, mapped := true },
    addr_ := 1048576,
    zone_ := some ⟨8192,
      { addr := 1048576, pool_size := 4096, helper := 0, helper_size := 0,
        live := [], next := 64 }⟩,
    helper_ := 0, helper_size_ := 0 }

/-- The heap openHeap after Alloc(100) has handed out offset 64. -/
def openHeapWithBlock : ShelfHeap FileSim ZoneSim :=
  { openHeap with
    zone_ := some ⟨8192,
      { addr := 1048576, pool_size := 4096, helper := 0, helper_size := 0,
        live := [64], next := 192 }⟩ }

/-- A heap that was never opened but still holds a mapping: what Verify() makes of
freshHeap when its unmap fails. -/
def leakedHeap : ShelfHeap FileSim ZoneSim :=
  { is_open_ := false,
    shelf_ := { exist := true, size := 4096, opened := true, mapped := true },
    addr_ := 1048576, zone_ := none, helper_ := 0, helper_size_ := 0 }

/-- The heap that a Close() whose unmap fails makes of the heap opened with Open(7, 16):
still marked open, still mapped, and without a Zone. -/
def zonelessOpenHeap : ShelfHeap FileSim ZoneSim :=
  { is_open_ := true,
    shelf_ := { exist := true, size := 4096, opened := true, mapped := true },
    addr_ := 1048576, zone_ := none, helper_ := 7, helper_size_ := 16 }

/-- The simulated Zone with its object placed 64 bytes below address 1048576. -/
def stubZoneBelow : ZoneClass ZoneSim := { stubZone with new_addr := 1048512 }

/-- An open heap whose Zone object lies at 1048512 and in which Alloc(64) was called twice,
handing out offsets 64 and 128. -/
def twoBlocksHeap : ShelfHeap FileSim ZoneSim :=
  { openHeap with
    zone_ := some ⟨1048512,
      { addr := 1048576, pool_size := 4096, helper := 0, helper_size := 0,
        live := [128, 64], next := 192 }⟩ }

/-! # Theorems -/

variable {σ Z : Type}

/-! ## Facts about the two private helpers -/

/-- A returning UnmapCloseShelf changes only shelf_ and addr_, and leaves addr_ NULL when it
returns NO_ERROR. -/
theorem UnmapCloseShelf_frame (F : ShelfFile σ) (h h' : ShelfHeap σ Z) (a b : Bool)
    (code : ErrorCode) (hh : ShelfHeap.UnmapCloseShelf F h a b = .ret code h') :
    h'.is_open_ = h.is_open_ ∧ h'.zone_ = h.zone_ ∧ h'.helper_ = h.helper_ ∧
      h'.helper_size_ = h.helper_size_ ∧ (code = NO_ERROR → h'.addr_ = NULL) := by
  simp only [ShelfHeap.UnmapCloseShelf] at hh
  split_ifs at hh <;> simp only [Outcome.ret.injEq, reduceCtorEq] at hh <;>
    obtain ⟨h1, rfl⟩ := hh <;> (try subst h1) <;> simp_all

/-- A successful UnmapCloseShelf on the shared path found the region, and its final
ShelfFile state is that of Close after Unmap. -/
theorem UnmapCloseShelf_shared_ok (F : ShelfFile σ) (h h' : ShelfHeap σ Z) (b : Bool)
    (hh : ShelfHeap.UnmapCloseShelf F h true b = .ret NO_ERROR h') :
    F.Exist h.shelf_ = true ∧ h'.shelf_ = (F.Close (F.Unmap h.shelf_ h.addr_ b).2).2 := by
  simp only [ShelfHeap.UnmapCloseShelf] at hh
  split_ifs at hh <;> simp only [Outcome.ret.injEq, reduceCtorEq] at hh <;>
    obtain ⟨h1, rfl⟩ := hh <;> simp_all

/-- A returning OpenMapShelf changes only shelf_ and addr_. -/
theorem OpenMapShelf_frame (F : ShelfFile σ) (h h' : ShelfHeap σ Z) (a : Bool)
    (code : ErrorCode) (hh : ShelfHeap.OpenMapShelf F h a = .ret code h') :
    h'.is_open_ = h.is_open_ ∧ h'.zone_ = h.zone_ ∧ h'.helper_ = h.helper_ ∧
      h'.helper_size_ = h.helper_size_ := by
  simp only [ShelfHeap.OpenMapShelf] at hh
  split_ifs at hh <;> simp only [Outcome.ret.injEq, reduceCtorEq] at hh <;>
    obtain ⟨h1, rfl⟩ := hh <;> (try subst h1) <;> simp_all

/-- The simulated RegionStore whose calls all succeed is cooperative. -/
theorem simFile_allSucceed_cooperative : Cooperative (simFile allSucceed) := by
  constructor <;> intros <;> simp [simFile, allSucceed]

/-- With a cooperating RegionStore, Create of a non-zero size on an unmapped closed heap over
an existing region returns NO_ERROR and leaves the region with that size. -/
theorem Create_cooperative (F : ShelfFile σ) (Zc : ZoneClass Z) (h : ShelfHeap σ Z)
    (N : Nat) (helper : Ptr) (helper_size : Nat) (hF : Cooperative F)
    (hclosed : h.is_open_ = false) (haddr : h.addr_ = NULL)
    (hexist : F.Exist h.shelf_ = true) (hN : 0 < N) :
    ∃ h1, ShelfHeap.Create F Zc h N helper helper_size = .ret NO_ERROR h1 ∧
      h1.is_open_ = false ∧ h1.addr_ = NULL ∧ F.Exist h1.shelf_ = true ∧ F.Size h1.shelf_ = N := by
  have hN0 : N ≠ 0 := Nat.pos_iff_ne_zero.mp hN
  simp [ShelfHeap.Create, ShelfHeap.OpenMapShelf, ShelfHeap.UnmapCloseShelf, ShelfHeap.IsOpen,
    hclosed, haddr, hexist, hN0, hF.truncate_ok, hF.open_ok, hF.close_ok, hF.mapRange_ok,
    hF.unmapRange_ok, hF.mapRange_ne_NULL, hF.truncate_size, hF.open_size, hF.close_size,
    hF.mapRange_size, hF.unmapRange_size, hF.truncate_exist, hF.open_exist, hF.close_exist,
    hF.mapRange_exist, hF.unmapRange_exist]

/-- A returning PtrToOffset yields the distance of addr from the Zone object zone_ points to. -/
theorem PtrToOffset_measures_from_zone_object (Zc : ZoneClass Z) (h h' : ShelfHeap σ Z)
    (z : ZoneRef Z) (addr : Ptr) (r : Offset) (hz : h.zone_ = some z)
    (hh : ShelfHeap.PtrToOffset Zc h addr = .ret r h') :
    z.ptr < addr ∧ r = addr - z.ptr := by
  simp only [ShelfHeap.PtrToOffset, hz] at hh
  split_ifs at hh with h1 h2 h3
  simp only [Outcome.ret.injEq] at hh
  exact ⟨by simpa using h2, hh.1.symm⟩

/-- PtrToOffset can return o for the pointer addr_ + o only if the Zone object itself lies at
the mapped address addr_. -/
theorem PtrToOffset_roundtrip_needs_zone_at_base (Zc : ZoneClass Z) (h h' : ShelfHeap σ Z)
    (z : ZoneRef Z) (o : Offset) (hz : h.zone_ = some z)
    (hh : ShelfHeap.PtrToOffset Zc h (h.addr_ + o) = .ret o h') :
    z.ptr = h.addr_ := by
  obtain ⟨h1, h2⟩ := PtrToOffset_measures_from_zone_object Zc h h' z _ o hz hh
  simp only [Ptr, Offset] at *
  omega

/-! ## C1: is_open_ implies a bound Zone and a held mapping -/

/-- Claim C1 (lifecycle invariant), evaluated where the code breaks it: from a freshly
constructed heap, Open succeeds and then Close is called while the RegionStore fails.  Close
has already deleted the Zone and set zone_ to NULL when it learns of the failure, and it keeps
is_open_ true: after a failing Unmap the heap is open with zone_ NULL, after a failing
shelf Close it is open with zone_ NULL and addr_ NULL, and Alloc on such a heap reaches
zone_-> with zone_ NULL. -/
theorem C1_failed_Close_leaves_heap_open_without_zone :
    runAll (simFile unmapFails) stubZone [.Open 0 0, .Close] freshHeap
      = .ret (.OTHER 1)
          { is_open_ := true,
            shelf_ := { exist := true, size := 4096, opened := true, mapped := true },
            addr_ := 1048576, zone_ := none, helper_ := 0, helper_size_ := 0 } ∧
    runAll (simFile closeFails) stubZone [.Open 0 0, .Close] freshHeap
      = .ret (.OTHER 2)
          { is_open_ := true,
            shelf_ := { exist := true, size := 4096, opened := true, mapped := false },
            addr_ := NULL, zone_ := none, helper_ := 0, helper_size_ := 0 } ∧
    ShelfHeap.Alloc stubZone
        (runAll (simFile unmapFails) stubZone [.Open 0 0, .Close] freshHeap).state 64
      = .abort .zone_NULL
          (runAll (simFile unmapFails) stubZone [.Open 0 0, .Close] freshHeap).state := by
  refine ⟨rfl, rfl, rfl⟩

/-! ## C2: Open -/

/-- Open on a closed heap that holds no mapping (addr_ NULL): Open returns NO_ERROR
exactly when the region exists and the ShelfFile Open and shared-path Map both succeed; the
heap is then open with addr_ the mapped address and a Zone attached over it with the region
size shelf_.Size() and the given helper and helper_size; otherwise Open returns
SHELF_FILE_NOT_FOUND for a missing region, or the code of the failing Open or Map, and the
heap stays closed with no Zone. -/
theorem Open_on_unmapped_closed_heap (F : ShelfFile σ) (Zc : ZoneClass Z) (h : ShelfHeap σ Z)
    (helper : Ptr) (helper_size : Nat)
    (hclosed : h.is_open_ = false) (hzone : h.zone_ = none) (haddr : h.addr_ = NULL) :
    ((∃ h', ShelfHeap.Open F Zc h helper helper_size = .ret NO_ERROR h') ↔
      (F.Exist h.shelf_ = true ∧ (F.Open h.shelf_ O_RDWR).1 = NO_ERROR ∧
        (F.Map (F.Open h.shelf_ O_RDWR).2 NULL).1 = NO_ERROR)) ∧
    (F.Exist h.shelf_ = true → (F.Open h.shelf_ O_RDWR).1 = NO_ERROR →
      (F.Map (F.Open h.shelf_ O_RDWR).2 NULL).1 = NO_ERROR →
      ShelfHeap.Open F Zc h helper helper_size = .ret NO_ERROR
        { is_open_ := true,
          shelf_ := (F.Map (F.Open h.shelf_ O_RDWR).2 NULL).2.2,
          addr_ := (F.Map (F.Open h.shelf_ O_RDWR).2 NULL).2.1,
          zone_ := some ⟨Zc.new_addr,
            Zc.attach (F.Map (F.Open h.shelf_ O_RDWR).2 NULL).2.1
              (F.Size (F.Map (F.Open h.shelf_ O_RDWR).2 NULL).2.2) helper helper_size⟩,
          helper_ := helper, helper_size_ := helper_size }) ∧
    (F.Exist h.shelf_ = false →
      ShelfHeap.Open F Zc h helper helper_size = .ret SHELF_FILE_NOT_FOUND h) ∧
    (F.Exist h.shelf_ = true → (F.Open h.shelf_ O_RDWR).1 ≠ NO_ERROR →
      ShelfHeap.Open F Zc h helper helper_size
        = .ret (F.Open h.shelf_ O_RDWR).1 { h with shelf_ := (F.Open h.shelf_ O_RDWR).2 }) ∧
    (F.Exist h.shelf_ = true → (F.Open h.shelf_ O_RDWR).1 = NO_ERROR →
      (F.Map (F.Open h.shelf_ O_RDWR).2 NULL).1 ≠ NO_ERROR →
      ShelfHeap.Open F Zc h helper helper_size
        = .ret (F.Map (F.Open h.shelf_ O_RDWR).2 NULL).1
            { h with shelf_ := (F.Map (F.Open h.shelf_ O_RDWR).2 NULL).2.2,
                     addr_ := (F.Map (F.Open h.shelf_ O_RDWR).2 NULL).2.1 }) ∧
    (∀ code h', ShelfHeap.Open F Zc h helper helper_size = .ret code h' → code ≠ NO_ERROR →
      h'.is_open_ = false ∧ h'.zone_ = none) := by
  have key : ∀ e : ErrorCode, e ≠ NO_ERROR → ¬ (e = NO_ERROR) := fun _ h => h
  refine ⟨?_, ?_, ?_, ?_, ?_, ?_⟩
  · constructor
    · rintro ⟨h', hh⟩
      revert hh
      simp only [ShelfHeap.Open, ShelfHeap.OpenMapShelf, ShelfHeap.IsOpen, hclosed, haddr]
      by_cases hE : F.Exist h.shelf_ = true
      · by_cases hO : (F.Open h.shelf_ O_RDWR).1 = NO_ERROR
        · by_cases hM : (F.Map (F.Open h.shelf_ O_RDWR).2 NULL).1 = NO_ERROR
          · intro _; exact ⟨hE, hO, hM⟩
          · simp [hE, hO, hM]
        · simp [hE, hO]
      · simp [hE]
    · rintro ⟨hE, hO, hM⟩
      simp [ShelfHeap.Open, ShelfHeap.OpenMapShelf, ShelfHeap.IsOpen, hclosed, haddr, hE, hO, hM]
  · intro hE hO hM
    simp [ShelfHeap.Open, ShelfHeap.OpenMapShelf, ShelfHeap.IsOpen, hclosed, haddr, hE, hO, hM]
  · intro hE
    simp [ShelfHeap.Open, ShelfHeap.OpenMapShelf, ShelfHeap.IsOpen, hclosed, hE]
  · intro hE hO
    simp [ShelfHeap.Open, ShelfHeap.OpenMapShelf, ShelfHeap.IsOpen, hclosed, hE, hO]
  · intro hE hO hM
    simp [ShelfHeap.Open, ShelfHeap.OpenMapShelf, ShelfHeap.IsOpen, hclosed, haddr, hE, hO, hM]
  · intro code h'
    simp only [ShelfHeap.Open, ShelfHeap.OpenMapShelf, ShelfHeap.IsOpen, hclosed, haddr]
    by_cases hE : F.Exist h.shelf_ = true
    · by_cases hO : (F.Open h.shelf_ O_RDWR).1 = NO_ERROR
      · by_cases hM : (F.Map (F.Open h.shelf_ O_RDWR).2 NULL).1 = NO_ERROR
        · simp [hE, hO, hM]
          intro h1 _ h2; exact absurd h1.symm h2
        · simp [hE, hO, hM]
          intro _ h2 _; subst h2; simp [hclosed, hzone]
      · simp [hE, hO]
        intro _ h2 _; subst h2; simp [hclosed, hzone]
    · simp [hE]
      intro _ h2 _; subst h2; simp [hclosed, hzone]

/-- Claim C2 (what Open returns on a closed heap), evaluated where the code breaks it.
Verify() on the fresh heap returns NO_ERROR although the Unmap of its cleanup step failed;
the heap is closed with no Zone, but addr_ still holds the mapped address and the shelf is
still open.  On that closed heap the region exists and the ShelfFile Open and shared-path
Map calls succeed, yet Open neither returns NO_ERROR nor any error code:
assert(addr_ == NULL) in OpenMapShelf fails. -/
theorem C2_Open_aborts_on_closed_heap_left_mapped_by_Verify :
    runAll (simFile unmapFails) stubZone [.Verify] freshHeap = .ret NO_ERROR leakedHeap ∧
    leakedHeap.is_open_ = false ∧ leakedHeap.zone_ = none ∧
    leakedHeap.addr_ = 1048576 ∧ leakedHeap.shelf_.opened = true ∧
    (simFile unmapFails).Exist leakedHeap.shelf_ = true ∧
    ((simFile unmapFails).Open leakedHeap.shelf_ O_RDWR).1 = NO_ERROR ∧
    ((simFile unmapFails).Map ((simFile unmapFails).Open leakedHeap.shelf_ O_RDWR).2 NULL).1
      = NO_ERROR ∧
    ShelfHeap.Open (simFile unmapFails) stubZone leakedHeap 0 0
      = .abort .addr_eq_NULL leakedHeap ∧
    ¬ ∃ code h', ShelfHeap.Open (simFile unmapFails) stubZone leakedHeap 0 0 = .ret code h' := by
  refine ⟨rfl, rfl, rfl, rfl, rfl, rfl, rfl, rfl, rfl, ?_⟩
  rintro ⟨code, h', hh⟩
  have hA : ShelfHeap.Open (simFile unmapFails) stubZone leakedHeap 0 0
      = .abort .addr_eq_NULL leakedHeap := rfl
  rw [hA] at hh
  cases hh

/-! ## C3: Create, Open, Size -/

/-- Create, Open and Size for N > 0: with a cooperating RegionStore, on a closed heap that
holds no mapping and whose region exists, Create(N, helper, helper_size) returns NO_ERROR, the
following Open(helper, helper_size) returns NO_ERROR, and Size() then returns N. -/
theorem Create_Open_Size_cooperative (F : ShelfFile σ) (Zc : ZoneClass Z) (h : ShelfHeap σ Z)
    (N : Nat) (helper : Ptr) (helper_size : Nat) (hF : Cooperative F)
    (hclosed : h.is_open_ = false) (haddr : h.addr_ = NULL)
    (hexist : F.Exist h.shelf_ = true) (hN : 0 < N) :
    ∃ h1 h2, ShelfHeap.Create F Zc h N helper helper_size = .ret NO_ERROR h1 ∧
      ShelfHeap.Open F Zc h1 helper helper_size = .ret NO_ERROR h2 ∧
      ShelfHeap.Size F h2 = .ret N h2 := by
  obtain ⟨h1, hC, ho1, ha1, he1, hs1⟩ :=
    Create_cooperative F Zc h N helper helper_size hF hclosed haddr hexist hN
  obtain ⟨h2, hO, ho2, hs2⟩ : ∃ h2, ShelfHeap.Open F Zc h1 helper helper_size = .ret NO_ERROR h2 ∧
      h2.is_open_ = true ∧ F.Size h2.shelf_ = F.Size h1.shelf_ := by
    simp [ShelfHeap.Open, ShelfHeap.OpenMapShelf, ShelfHeap.IsOpen, ho1, ha1, he1,
      hF.open_ok, hF.map_ok, hF.open_size, hF.map_size]
  refine ⟨h1, h2, hC, hO, ?_⟩
  simp [ShelfHeap.Size, ShelfHeap.IsOpen, ho2, hs2, hs1]

/-- Claim C3 (Create(N, h); Open(h); Size() returns N for every N), evaluated where the code
breaks it, at N = 0 on a closed heap over an existing region with every RegionStore call
succeeding: Truncate(0) succeeds, OpenMapShelf maps nothing for a region of size 0 and
returns NO_ERROR with addr_ NULL, and UnmapCloseShelf then fails assert(addr_ != NULL) inside
Create, so the sequence never reaches Open or Size. -/
theorem C3_Create_of_size_zero_fails_assertion :
    Cooperative (simFile allSucceed) ∧
    (ShelfHeap.construct (existingFile 0) : ShelfHeap FileSim ZoneSim).is_open_ = false ∧
    (simFile allSucceed).Exist (existingFile 0) = true ∧
    ShelfHeap.Create (simFile allSucceed) stubZone (ShelfHeap.construct (existingFile 0)) 0 0 0
      = .abort .addr_ne_NULL
          { is_open_ := false,
            shelf_ := { exist := true, size := 0, opened := true, mapped := false },
            addr_ := NULL, zone_ := none, helper_ := 0, helper_size_ := 0 } ∧
    ¬ ∃ h1 h2, ShelfHeap.Create (simFile allSucceed) stubZone
          (ShelfHeap.construct (existingFile 0)) 0 0 0 = .ret NO_ERROR h1 ∧
        ShelfHeap.Open (simFile allSucceed) stubZone h1 0 0 = .ret NO_ERROR h2 ∧
        ShelfHeap.Size (simFile allSucceed) h2 = .ret 0 h2 := by
  refine ⟨simFile_allSucceed_cooperative, rfl, rfl, rfl, ?_⟩
  rintro ⟨h1, h2, hC, -, -⟩
  have hA : ShelfHeap.Create (simFile allSucceed) stubZone
      (ShelfHeap.construct (existingFile 0)) 0 0 0 = .abort .addr_ne_NULL
          { is_open_ := false,
            shelf_ := { exist := true, size := 0, opened := true, mapped := false },
            addr_ := NULL, zone_ := none, helper_ := 0, helper_size_ := 0 } := rfl
  rw [hA] at hC
  cases hC

/-! ## C4: PtrToOffset against OffsetToPtr -/

/-- Claim C4 (offset and pointer round trip), evaluated where the code breaks it: the heap is
opened over a region mapped at 1048576, the Zone object lies at 8192, and Alloc(100) hands out
offset 64.  OffsetToPtr(64) returns base + 64, while PtrToOffset(base + 64) subtracts the
address of the Zone object (zone_) instead of the base: it computes 1048640 - 8192 = 1040448,
which is not a valid offset, and fails its assertion instead of returning 64.  With the Zone
object at 1048512, 64 bytes below the mapping, and offsets 64 and 128 allocated,
PtrToOffset(base + 64) returns 128. -/
theorem C4_PtrToOffset_subtracts_zone_object_address :
    ShelfHeap.Open (simFile allSucceed) stubZone freshHeap 0 0
      = .ret NO_ERROR
          { is_open_ := true,
            shelf_ := { exist := true, size := 4096, opened := true, mapped := true },
            addr_ := 1048576,
            zone_ := some ⟨8192,
              { addr := 1048576, pool_size := 4096, helper := 0, helper_size := 0,
                live := [], next := 64 }⟩,
            helper_ := 0, helper_size_ := 0 } ∧
    ShelfHeap.Alloc stubZone
        (ShelfHeap.Open (simFile allSucceed) stubZone freshHeap 0 0).state 100
      = .ret 64
          { is_open_ := true,
            shelf_ := { exist := true, size := 4096, opened := true, mapped := true },
            addr_ := 1048576,
            zone_ := some ⟨8192,
              { addr := 1048576, pool_size := 4096, helper := 0, helper_size := 0,
                live := [64], next := 192 }⟩,
            helper_ := 0, helper_size_ := 0 } ∧
    ShelfHeap.OffsetToPtr stubZone
        (ShelfHeap.Alloc stubZone
          (ShelfHeap.Open (simFile allSucceed) stubZone freshHeap 0 0).state 100).state 64
      = .ret (1048576 + 64)
          (ShelfHeap.Alloc stubZone
            (ShelfHeap.Open (simFile allSucceed) stubZone freshHeap 0 0).state 100).state ∧
    ShelfHeap.PtrToOffset stubZone
        (ShelfHeap.Alloc stubZone
          (ShelfHeap.Open (simFile allSucceed) stubZone freshHeap 0 0).state 100).state
        (1048576 + 64)
      = .abort .IsValidOffset_true
          (ShelfHeap.Alloc stubZone
            (ShelfHeap.Open (simFile allSucceed) stubZone freshHeap 0 0).state 100).state ∧
    (ShelfHeap.Alloc stubZoneBelow
        (ShelfHeap.Alloc stubZoneBelow
          (ShelfHeap.Open (simFile allSucceed) stubZoneBelow freshHeap 0 0).state 64).state
        64).state = twoBlocksHeap ∧
    ShelfHeap.OffsetToPtr stubZoneBelow twoBlocksHeap 64 = .ret (1048576 + 64) twoBlocksHeap ∧
    ShelfHeap.PtrToOffset stubZoneBelow twoBlocksHeap (1048576 + 64) = .ret 128 twoBlocksHeap := by
  refine ⟨rfl, rfl, rfl, ?_, rfl, rfl, ?_⟩ <;> decide

/-! ## C5: Create without a backing region -/

/-- Claim C5 as amended: on a closed heap whose backing region does not exist, Create does
not return an error code; its assertion shelf_.Exist() == true fails, before any ShelfFile
call that resizes, opens or maps the region, with the heap state unchanged. -/
theorem C5_Create_missing_region_aborts (F : ShelfFile σ) (Zc : ZoneClass Z) (h : ShelfHeap σ Z)
    (zone_size : Nat) (helper : Ptr) (helper_size : Nat)
    (hclosed : h.is_open_ = false) (hmissing : F.Exist h.shelf_ = false) :
    ShelfHeap.Create F Zc h zone_size helper helper_size = .abort .Exist_true h := by
  simp [ShelfHeap.Create, ShelfHeap.IsOpen, hclosed, hmissing]

/-- Witness for C5: Create(4096, 7, 16) on a heap over a missing region. -/
theorem C5_Create_missing_region_aborts_witness :
    (ShelfHeap.construct missingFile : ShelfHeap FileSim ZoneSim).is_open_ = false ∧
    (simFile closeFails).Exist
      (ShelfHeap.construct missingFile : ShelfHeap FileSim ZoneSim).shelf_ = false ∧
    ShelfHeap.Create (simFile closeFails) stubZone (ShelfHeap.construct missingFile) 4096 7 16
      = .abort .Exist_true (ShelfHeap.construct missingFile) :=
  ⟨rfl, rfl,
    C5_Create_missing_region_aborts (simFile closeFails) stubZone
      (ShelfHeap.construct missingFile) 4096 7 16 rfl rfl⟩

/-- Counterexample to C5 as stated: on a closed heap over a missing region Create(4096, 0, 0)
ends in the failed assertion shelf_.Exist() == true; it does not return
SHELF_FILE_NOT_FOUND. -/
theorem C5_counterexample :
    (ShelfHeap.construct missingFile : ShelfHeap FileSim ZoneSim).is_open_ = false ∧
    (simFile allSucceed).Exist (ShelfHeap.construct missingFile : ShelfHeap FileSim ZoneSim).shelf_ = false ∧
    ShelfHeap.Create (simFile allSucceed) stubZone (ShelfHeap.construct missingFile) 4096 0 0
      = .abort .Exist_true (ShelfHeap.construct missingFile) ∧
    ¬ ∃ h', ShelfHeap.Create (simFile allSucceed) stubZone (ShelfHeap.construct missingFile) 4096 0 0
      = .ret SHELF_FILE_NOT_FOUND h' := by
  refine ⟨rfl, rfl, rfl, ?_⟩
  rintro ⟨h', hh⟩
  have : ShelfHeap.Create (simFile allSucceed) stubZone (ShelfHeap.construct missingFile) 4096 0 0
      = .abort .Exist_true (ShelfHeap.construct missingFile) := rfl
  rw [this] at hh
  cases hh

/-! ## C6: the forwarding operations -/

/-- The forwarding operations where they behave as documented: on a closed heap each of Size, MinAllocSize, Alloc, Free, IsValidOffset,
OffsetToPtr and PtrToOffset fails its IsOpen() assertion with the heap state unchanged; on an
open heap whose zone_ points to the Zone z, Alloc, Free, IsValidOffset and MinAllocSize return
exactly what alloc, free, IsValidOffset and min_obj_size of z return, the only state change
being the one alloc and free make to z. -/
theorem forwarding_ops_abort_closed_delegate_bound (F : ShelfFile σ) (Zc : ZoneClass Z)
    (hc ho : ShelfHeap σ Z) (z : ZoneRef Z) (size : Nat) (offset : Offset) (addr : Ptr)
    (hclosed : hc.is_open_ = false) (hopen : ho.is_open_ = true) (hzone : ho.zone_ = some z) :
    (ShelfHeap.Size F hc = .abort .IsOpen_true hc ∧
     ShelfHeap.MinAllocSize Zc hc = .abort .IsOpen_true hc ∧
     ShelfHeap.Alloc Zc hc size = .abort .IsOpen_true hc ∧
     ShelfHeap.Free Zc hc offset = .abort .IsOpen_true hc ∧
     ShelfHeap.IsValidOffset Zc hc offset = .abort .IsOpen_true hc ∧
     ShelfHeap.OffsetToPtr Zc hc offset = .abort .IsOpen_true hc ∧
     ShelfHeap.PtrToOffset Zc hc addr = .abort .IsOpen_true hc) ∧
    (ShelfHeap.Alloc Zc ho size =
       .ret (Zc.alloc z.obj size).1 { ho with zone_ := some ⟨z.ptr, (Zc.alloc z.obj size).2⟩ } ∧
     ShelfHeap.Free Zc ho offset = .ret () { ho with zone_ := some ⟨z.ptr, Zc.free z.obj offset⟩ } ∧
     ShelfHeap.IsValidOffset Zc ho offset = .ret (Zc.IsValidOffset z.obj offset) ho ∧
     ShelfHeap.MinAllocSize Zc ho = .ret (Zc.min_obj_size z.obj) ho) := by
  refine ⟨⟨?_, ?_, ?_, ?_, ?_, ?_, ?_⟩, ?_, ?_, ?_, ?_⟩ <;>
    simp [ShelfHeap.Size, ShelfHeap.MinAllocSize, ShelfHeap.Alloc, ShelfHeap.Free, ShelfHeap.IsValidOffset, ShelfHeap.OffsetToPtr, ShelfHeap.PtrToOffset, ShelfHeap.IsOpen,
      hclosed, hopen, hzone]

/-- Claim C6 (on every open heap Alloc, Free, IsValidOffset and MinAllocSize return what the
bound Zone returns), evaluated where the code breaks it.  From the fresh heap, Open(7, 16)
succeeds and Close() is called while Unmap fails: Close has already deleted the Zone and set
zone_ to NULL, and it leaves is_open_ true.  On this open heap each of the four operations
passes its assert(IsOpen() == true), the only check it makes, and then uses zone_-> with
zone_ NULL: none of them returns a Zone result. -/
theorem C6_open_heap_without_zone_cannot_delegate :
    runAll (simFile unmapFails) stubZone [.Open 7 16, .Close] freshHeap
      = .ret (.OTHER 1) zonelessOpenHeap ∧
    zonelessOpenHeap.is_open_ = true ∧ zonelessOpenHeap.zone_ = none ∧
    ShelfHeap.Alloc stubZone zonelessOpenHeap 100 = .abort .zone_NULL zonelessOpenHeap ∧
    ShelfHeap.Free stubZone zonelessOpenHeap 128 = .abort .zone_NULL zonelessOpenHeap ∧
    ShelfHeap.IsValidOffset stubZone zonelessOpenHeap 128
      = .abort .zone_NULL zonelessOpenHeap ∧
    ShelfHeap.MinAllocSize stubZone zonelessOpenHeap = .abort .zone_NULL zonelessOpenHeap := by
  exact ⟨rfl, rfl, rfl, rfl, rfl, rfl, rfl⟩

/-! ## C7: propagation of RegionStore errors -/

/-- Claim C8 as amended: when Close and then Destroy both return NO_ERROR, the backing region
has size 0 (truncate sets the size when it succeeds) and the heap is closed, with no Zone and
no mapping held.  Destroy makes no call that removes the region: with a RegionStore whose
Unmap, Close and Truncate leave existence unchanged, the region still exists afterwards. -/
theorem C8_Close_Destroy_truncates (F : ShelfFile σ) (h h1 h2 : ShelfHeap σ Z)
    (htruncate : ∀ s n, (F.Truncate s n).1 = NO_ERROR → F.Size (F.Truncate s n).2 = n)
    (hunmapE : ∀ s a u, F.Exist (F.Unmap s a u).2 = F.Exist s)
    (hcloseE : ∀ s, F.Exist (F.Close s).2 = F.Exist s)
    (htruncateE : ∀ s n, F.Exist (F.Truncate s n).2 = F.Exist s)
    (hclose : ShelfHeap.Close F h = .ret NO_ERROR h1)
    (hdestroy : ShelfHeap.Destroy F h1 = .ret NO_ERROR h2) :
    F.Size h2.shelf_ = 0 ∧ h2.is_open_ = false ∧ h2.addr_ = NULL ∧ h2.zone_ = none ∧
      F.Exist h2.shelf_ = true := by
  -- Close
  have hc : h1.is_open_ = false ∧ h1.zone_ = none := by
    simp only [ShelfHeap.Close] at hclose
    split_ifs at hclose
    split at hclose
    · cases hclose
    · rename_i code s hU
      have hf := UnmapCloseShelf_frame F _ _ _ _ _ hU
      split_ifs at hclose <;> simp only [Outcome.ret.injEq, reduceCtorEq] at hclose
      · obtain ⟨-, rfl⟩ := hclose
        simp [hf.2.1]
      · exact absurd hclose.1 (by assumption)
  -- Destroy
  simp only [ShelfHeap.Destroy] at hdestroy
  split_ifs at hdestroy
  split at hdestroy
  · cases hdestroy
  · rename_i code s hO
    have hfO := OpenMapShelf_frame F _ _ _ _ hO
    split_ifs at hdestroy with hcode
    · simp only [Outcome.ret.injEq] at hdestroy
      exact absurd hdestroy.1 hcode
    · split at hdestroy
      · cases hdestroy
      · rename_i code2 s2 hU
        have hfU := UnmapCloseShelf_frame F _ _ _ _ _ hU
        split_ifs at hdestroy with hcode2
        · simp only [Outcome.ret.injEq] at hdestroy
          exact absurd hdestroy.1 hcode2
        · simp only [ne_eq, not_not] at hcode2
          subst hcode2
          have hsh := UnmapCloseShelf_shared_ok F _ _ _ hU
          simp only [Outcome.ret.injEq] at hdestroy
          obtain ⟨ht, rfl⟩ := hdestroy
          refine ⟨htruncate _ _ ht, ?_, ?_, ?_, ?_⟩
          · simp [hfU.1, hfO.1, hc.1]
          · simpa using hfU.2.2.2.2 rfl
          · simp [hfU.2.1, hfO.2.1, hc.2]
          · simp [htruncateE, hsh.2, hcloseE, hunmapE, hsh.1]

/-- Witness for C8: Close and Destroy on the opened heap, all calls succeeding. -/
theorem C8_Close_Destroy_truncates_witness :
    ShelfHeap.Close (simFile allSucceed) openHeap = .ret NO_ERROR freshHeap ∧
    ShelfHeap.Destroy (simFile allSucceed) freshHeap
      = .ret NO_ERROR (ShelfHeap.construct (existingFile 0)) ∧
    ((simFile allSucceed).Size (ShelfHeap.construct (existingFile 0) :
        ShelfHeap FileSim ZoneSim).shelf_ = 0 ∧
      (ShelfHeap.construct (existingFile 0) : ShelfHeap FileSim ZoneSim).is_open_ = false ∧
      (ShelfHeap.construct (existingFile 0) : ShelfHeap FileSim ZoneSim).addr_ = NULL ∧
      (ShelfHeap.construct (existingFile 0) : ShelfHeap FileSim ZoneSim).zone_ = none ∧
      (simFile allSucceed).Exist (ShelfHeap.construct (existingFile 0) :
        ShelfHeap FileSim ZoneSim).shelf_ = true) :=
  ⟨rfl, rfl,
    C8_Close_Destroy_truncates (simFile allSucceed) openHeap freshHeap
      (ShelfHeap.construct (existingFile 0))
      (by intros; simp [simFile, allSucceed])
      (by intros; simp [simFile, allSucceed])
      (by intros; simp [simFile, allSucceed])
      (by intros; simp [simFile, allSucceed])
      rfl rfl⟩

/-- Counterexample to C8 as stated: Open, Close and Destroy all return NO_ERROR on the fresh
heap; the region then has size 0, and the existence check on it is still true. -/
theorem C8_counterexample :
    ShelfHeap.Open (simFile allSucceed) stubZone freshHeap 0 0 = .ret NO_ERROR openHeap ∧
    ShelfHeap.Close (simFile allSucceed) openHeap = .ret NO_ERROR freshHeap ∧
    ShelfHeap.Destroy (simFile allSucceed) freshHeap
      = .ret NO_ERROR (ShelfHeap.construct (existingFile 0)) ∧
    (simFile allSucceed).Size (existingFile 0) = 0 ∧
    (simFile allSucceed).Exist (existingFile 0) = true := by
  refine ⟨rfl, rfl, rfl, rfl, rfl⟩

/-! ## C9: what Create leaves behind -/

/-- Claim C10 (no assertion fails when every RegionStore call succeeds), evaluated where the
code breaks it.  Create(8192) and Destroy succeed on the fresh heap and leave an existing
region of size 0; Verify then fails assert(addr_ != NULL) in UnmapCloseShelf, because
OpenMapShelf skipped the map for size 0 and returned NO_ERROR with addr_ NULL.  Create with
zone_size 0 fails the same assertion. -/
theorem C10_Verify_after_Destroy_fails_assertion :
    Cooperative (simFile allSucceed) ∧
    runAll (simFile allSucceed) stubZone [.Create 8192 0 0, .Destroy] freshHeap
      = .ret NO_ERROR
          { is_open_ := false,
            shelf_ := { exist := true, size := 0, opened := false, mapped := false },
            addr_ := NULL, zone_ := none, helper_ := 0, helper_size_ := 0 } ∧
    runAll (simFile allSucceed) stubZone [.Create 8192 0 0, .Destroy, .Verify] freshHeap
      = .abort .addr_ne_NULL
          { is_open_ := false,
            shelf_ := { exist := true, size := 0, opened := true, mapped := false },
            addr_ := NULL, zone_ := none, helper_ := 0, helper_size_ := 0 } ∧
    runAll (simFile allSucceed) stubZone [.Create 0 0 0] freshHeap
      = .abort .addr_ne_NULL
          { is_open_ := false,
            shelf_ := { exist := true, size := 0, opened := true, mapped := false },
            addr_ := NULL, zone_ := none, helper_ := 0, helper_size_ := 0 } := by
  exact ⟨simFile_allSucceed_cooperative, rfl, rfl, rfl⟩

end nvmm
